import Mathlib

/-!
Shallow embedding of the coprocessor request core of `src/coprocessor/mod.rs`:
the `Deadline` time-budget value type, the `ReqContext` per-request metadata
bundle, and the `RequestHandler` trait with its panicking default methods.

Monotonic time (`util::time::Instant`, coarse clock) is embedded as `Nat`;
every function of the source that samples the clock (`Instant::now_coarse()`)
takes the sampled instant as an explicit final argument.  `Duration` is also
`Nat` (ticks of the same clock).  `Instant + Duration` is `Nat` addition and
`Instant::duration_since` is truncated `Nat` subtraction.
-/

namespace Coprocessor

/-- Monotonic coarse clock instant (`util::time::Instant`). -/
abbrev Instant := Nat

/-- A span of time (`std::time::Duration`), in ticks of the coarse clock. -/
abbrev Duration := Nat

namespace kvrpcpb

/-- The rpc context carried in the request (`kvrpcpb::Context` from the
external `kvproto` crate); opaque metadata to this core, embedded as an
opaque payload. -/
structure Context where
  payload : List Nat
deriving DecidableEq, Repr

end kvrpcpb

namespace coppb

/-- A key range (`coppb::KeyRange` from the external `kvproto` crate). -/
structure KeyRange where
  start_key : List Nat
  end_key : List Nat
deriving DecidableEq, Repr

/-- A coprocessor response message (`coppb::Response` from the external
`kvproto` crate); opaque to this core. -/
structure Response where
  data : List Nat
deriving DecidableEq, Repr

end coppb

/-- The coprocessor error type.  The `error` module is not under `src/`;
only the `Outdated(elapsed, tag)` variant is used by the embedded code
(`Error::Outdated` at `check_if_exceeded`), with an opaque catch-all for the
remaining variants. -/
inductive Error where
  | Outdated (elapsed : Duration) (tag : String)
  | Other (msg : String)
deriving DecidableEq, Repr

/-- `type Result<T> = result::Result<T, Error>`. -/
abbrev Result (α : Type) := Except Error α

/-- `pub struct Deadline { tag, start_time, deadline }`. -/
structure Deadline where
  tag : String
  start_time : Instant
  deadline : Instant
deriving DecidableEq, Repr

/-- `Deadline::from_now(tag, after_duration)`: `now` is the instant sampled by
`Instant::now_coarse()` at the call. -/
def Deadline.from_now (tag : String) (after_duration : Duration) (now : Instant) : Deadline :=
  { tag := tag, start_time := now, deadline := now + after_duration }

/-- `Deadline::reset(after_duration)`: `self.deadline = self.start_time + after_duration`. -/
def Deadline.reset (self : Deadline) (after_duration : Duration) : Deadline :=
  { self with deadline := self.start_time + after_duration }

/-- `Deadline::check_if_exceeded()`: `now` is the instant sampled by
`Instant::now_coarse()` at the call.  Takes `&self`: non-mutating. -/
def Deadline.check_if_exceeded (self : Deadline) (now : Instant) : Result Unit :=
  if self.deadline ≤ now then
    Except.error (Error.Outdated (now - self.start_time) self.tag)
  else
    Except.ok ()

/-- `pub struct ReqContext`. -/
structure ReqContext where
  tag : String
  context : kvrpcpb.Context
  first_range : Option coppb.KeyRange
  ranges_len : Nat
  deadline : Deadline
  peer : Option String
  is_desc_scan : Option Bool
  txn_start_ts : Option Nat
deriving DecidableEq, Repr

/-- `ReqContext::new(tag, context, ranges, peer, is_desc_scan, txn_start_ts)`:
`now` is the instant sampled by the inner `Deadline::from_now` call.
`Duration::from_secs(0)` is the `0` duration. -/
def ReqContext.new (tag : String) (context : kvrpcpb.Context)
    (ranges : List coppb.KeyRange) (peer : Option String)
    (is_desc_scan : Option Bool) (txn_start_ts : Option Nat)
    (now : Instant) : ReqContext :=
  { tag := tag
    context := context
    deadline := Deadline.from_now tag 0 now
    peer := peer
    is_desc_scan := is_desc_scan
    txn_start_ts := txn_start_ts
    first_range := ranges.head?
    ranges_len := ranges.length }

/-- `ReqContext::set_max_handle_duration(request_max_handle_duration)`:
delegates to `Deadline::reset`. -/
def ReqContext.set_max_handle_duration (self : ReqContext)
    (request_max_handle_duration : Duration) : ReqContext :=
  { self with deadline := self.deadline.reset request_max_handle_duration }

/-- Outcome of invoking a trait method that may `panic!`: either the method
returns a value, or the process aborts with a panic message. -/
inductive PanicOr (α : Type) where
  | value (a : α)
  | panicked (msg : String)
deriving DecidableEq, Repr

/-- Modelled from the spec: `ExecutorMetrics` lives in the excluded
`dag::executor` module; the spec describes it as an accumulator of counters
and timers for rows processed, scan steps and wait time. -/
structure ExecutorMetrics where
  rows_processed : Nat
  scan_steps : Nat
  wait_time : Nat
deriving DecidableEq, Repr

/-- `type HandlerStreamStepResult = Result<(Option<coppb::Response>, bool)>`. -/
abbrev HandlerStreamStepResult := Result (Option coppb.Response × Bool)

/-- The `RequestHandler` trait.  A concrete variant (with private state `σ`,
mutated through `&mut self`) overrides a method by supplying `some f`; `none`
means the variant uses the trait default.  The defaults of `handle_request`
and `handle_streaming_request` panic; the default of `collect_metrics_into`
does nothing. -/
structure RequestHandler (σ : Type) where
  handleRequestImpl : Option (σ → σ × Result coppb.Response)
  handleStreamingRequestImpl : Option (σ → σ × HandlerStreamStepResult)
  collectMetricsIntoImpl : Option (σ → ExecutorMetrics → σ × ExecutorMetrics)

/-- `RequestHandler::handle_request(&mut self)`: dispatches to the override
if present, otherwise the trait default
`panic!("unary request is not supported for this handler")`. -/
def RequestHandler.handle_request {σ : Type} (h : RequestHandler σ) (s : σ) :
    PanicOr (σ × Result coppb.Response) :=
  match h.handleRequestImpl with
  | some f => PanicOr.value (f s)
  | none => PanicOr.panicked "unary request is not supported for this handler"

/-- `RequestHandler::handle_streaming_request(&mut self)`: dispatches to the
override if present, otherwise the trait default
`panic!("streaming request is not supported for this handler")`. -/
def RequestHandler.handle_streaming_request {σ : Type} (h : RequestHandler σ) (s : σ) :
    PanicOr (σ × HandlerStreamStepResult) :=
  match h.handleStreamingRequestImpl with
  | some f => PanicOr.value (f s)
  | none => PanicOr.panicked "streaming request is not supported for this handler"

/-- `RequestHandler::collect_metrics_into(&mut self, metrics)`: dispatches to
the override if present, otherwise the trait default, which does nothing. -/
def RequestHandler.collect_metrics_into {σ : Type} (h : RequestHandler σ) (s : σ)
    (metrics : ExecutorMetrics) : σ × ExecutorMetrics :=
  match h.collectMetricsIntoImpl with
  | some f => f s metrics
  | none => (s, metrics)

/-- A streaming-only handler: uses the trait default for `handle_request`. -/
def streamingOnlyHandler : RequestHandler Nat :=
  { handleRequestImpl := none
    handleStreamingRequestImpl :=
      some (fun s => (s + 1, Except.ok (some ⟨[s]⟩, s < 3)))
    collectMetricsIntoImpl := none }

/-- A unary-only handler: uses the trait default for `handle_streaming_request`
and for `collect_metrics_into`. -/
def unaryOnlyHandler : RequestHandler Nat :=
  { handleRequestImpl := some (fun s => (s, Except.ok ⟨[s]⟩))
    handleStreamingRequestImpl := none
    collectMetricsIntoImpl := none }

/-- C1: for every Deadline built by `from_now(tag, d)` at start instant `t0`
and every sampled instant `now`, `check_if_exceeded()` succeeds when
`now < t0 + d` and fails with `Outdated(now - t0, tag)` when `t0 + d ≤ now`. -/
theorem Deadline.check_if_exceeded_spec (tag : String) (d : Duration) (t0 now : Instant) :
    (now < t0 + d →
      (Deadline.from_now tag d t0).check_if_exceeded now = Except.ok ()) ∧
    (t0 + d ≤ now →
      (Deadline.from_now tag d t0).check_if_exceeded now
        = Except.error (Error.Outdated (now - t0) tag)) := by
  refine ⟨fun h => ?_, fun h => ?_⟩ <;>
    simp only [Deadline.from_now, Deadline.check_if_exceeded]
  · rw [if_neg (Nat.not_le.mpr h)]
  · rw [if_pos h]

/-- Witness for C1 at concrete instants: with start 10 and budget 5, the check
succeeds at instant 12 and fails at instant 15 with elapsed 5. -/
theorem Deadline.check_if_exceeded_spec_witness :
    (Deadline.from_now "select" 5 10).check_if_exceeded 12 = Except.ok () ∧
    (Deadline.from_now "select" 5 10).check_if_exceeded 15
      = Except.error (Error.Outdated 5 "select") :=
  ⟨(Deadline.check_if_exceeded_spec "select" 5 10 12).1 (by decide),
   (Deadline.check_if_exceeded_spec "select" 5 10 15).2 (by decide)⟩

/-- C2: `reset(d2)` sets the stored deadline to the original start time plus
`d2`, and leaves the tag and the start time unchanged. -/
theorem Deadline.reset_spec (dl : Deadline) (d2 : Duration) :
    (dl.reset d2).deadline = dl.start_time + d2 ∧
    (dl.reset d2).tag = dl.tag ∧
    (dl.reset d2).start_time = dl.start_time := by
  simp [Deadline.reset]

/-- C3: a ReqContext built from an empty range list has `first_range = none`
and `ranges_len = 0`; one built from a non-empty range list has `first_range`
equal to the first element by value and `ranges_len` equal to the list's
length. -/
theorem ReqContext.new_range_invariant (tag : String) (ctx : kvrpcpb.Context)
    (ranges : List coppb.KeyRange) (peer : Option String)
    (is_desc_scan : Option Bool) (txn_start_ts : Option Nat) (now : Instant) :
    (ranges = [] →
      (ReqContext.new tag ctx ranges peer is_desc_scan txn_start_ts now).first_range = none ∧
      (ReqContext.new tag ctx ranges peer is_desc_scan txn_start_ts now).ranges_len = 0) ∧
    (∀ r rs, ranges = r :: rs →
      (ReqContext.new tag ctx ranges peer is_desc_scan txn_start_ts now).first_range = some r ∧
      (ReqContext.new tag ctx ranges peer is_desc_scan txn_start_ts now).ranges_len
        = ranges.length) := by
  refine ⟨fun he => ?_, fun r rs he => ?_⟩ <;> subst he <;> simp [ReqContext.new]

/-- Witness for C3 at concrete inputs: the empty range list gives no first
range and length 0; a singleton range list gives its element and length 1. -/
theorem ReqContext.new_range_invariant_witness :
    ((ReqContext.new "test" ⟨[]⟩ [] none none none 0).first_range = none ∧
     (ReqContext.new "test" ⟨[]⟩ [] none none none 0).ranges_len = 0) ∧
    ((ReqContext.new "test" ⟨[]⟩ [⟨[1], [2]⟩] none none none 0).first_range
        = some ⟨[1], [2]⟩ ∧
     (ReqContext.new "test" ⟨[]⟩ [⟨[1], [2]⟩] none none none 0).ranges_len
        = [(⟨[1], [2]⟩ : coppb.KeyRange)].length) :=
  ⟨(ReqContext.new_range_invariant "test" ⟨[]⟩ [] none none none 0).1 rfl,
   (ReqContext.new_range_invariant "test" ⟨[]⟩ [⟨[1], [2]⟩] none none none 0).2
      ⟨[1], [2]⟩ [] rfl⟩

/-- C4: a handler that only supports streaming (no `handle_request` override)
panics on `handle_request`, and a handler that only supports unary (no
`handle_streaming_request` override) panics on `handle_streaming_request`;
neither invocation returns any value, so no empty or default data is ever
silently returned. -/
theorem RequestHandler.capability_mismatch_is_fatal {σ : Type}
    (h : RequestHandler σ) (s : σ) :
    (h.handleRequestImpl = none → h.handleStreamingRequestImpl.isSome = true →
      h.handle_request s
        = PanicOr.panicked "unary request is not supported for this handler" ∧
      ∀ v, h.handle_request s ≠ PanicOr.value v) ∧
    (h.handleStreamingRequestImpl = none → h.handleRequestImpl.isSome = true →
      h.handle_streaming_request s
        = PanicOr.panicked "streaming request is not supported for this handler" ∧
      ∀ v, h.handle_streaming_request s ≠ PanicOr.value v) := by
  refine ⟨fun h1 _ => ?_, fun h1 _ => ?_⟩ <;>
    simp [RequestHandler.handle_request, RequestHandler.handle_streaming_request, h1]

/-- Witness for C4 at concrete handlers: the streaming-only handler panics on
a unary invocation and the unary-only handler panics on a streaming
invocation. -/
theorem RequestHandler.capability_mismatch_is_fatal_witness :
    streamingOnlyHandler.handle_request 0
      = PanicOr.panicked "unary request is not supported for this handler" ∧
    unaryOnlyHandler.handle_streaming_request 0
      = PanicOr.panicked "streaming request is not supported for this handler" :=
  ⟨((RequestHandler.capability_mismatch_is_fatal streamingOnlyHandler 0).1 rfl rfl).1,
   ((RequestHandler.capability_mismatch_is_fatal unaryOnlyHandler 0).2 rfl rfl).1⟩

/-- C5: `from_now(tag, d)` sampled at instant `now` stores `now` as the start
time, sets the deadline to exactly `start_time + d`, and stores the tag; it is
a total function (a Lean `def`), so construction has no failure mode. -/
theorem Deadline.from_now_spec (tag : String) (d : Duration) (now : Instant) :
    (Deadline.from_now tag d now).start_time = now ∧
    (Deadline.from_now tag d now).deadline
      = (Deadline.from_now tag d now).start_time + d ∧
    (Deadline.from_now tag d now).tag = tag := by
  simp [Deadline.from_now]

/-- C6: the invariant `start_time ≤ deadline` holds after `from_now` and after
every `reset`, and in both cases the deadline is exactly the start time plus a
duration.  `check_if_exceeded` takes `&self` and is embedded as a non-mutating
function, so it preserves the invariant trivially. -/
theorem Deadline.ge_start_invariant :
    (∀ tag d now,
      (Deadline.from_now tag d now).start_time ≤ (Deadline.from_now tag d now).deadline ∧
      ∃ e, (Deadline.from_now tag d now).deadline
        = (Deadline.from_now tag d now).start_time + e) ∧
    (∀ dl d2,
      (dl.reset d2).start_time ≤ (Deadline.reset dl d2).deadline ∧
      ∃ e, (dl.reset d2).deadline = (Deadline.reset dl d2).start_time + e) := by
  refine ⟨fun tag d now => ⟨?_, d, ?_⟩, fun dl d2 => ⟨?_, d2, ?_⟩⟩ <;>
    simp [Deadline.from_now, Deadline.reset]

/-- C7: for a Deadline built with a 0-duration budget at instant `t0`, a check
at any instant `now ≥ t0` (the clock is monotonic) fails with `Outdated` whose
elapsed value is `now - t0`, the instant sampled at the check minus the start
time; an immediate check thus reports elapsed 0. -/
theorem Deadline.zero_duration_check_spec (tag : String) (t0 now : Instant)
    (h : t0 ≤ now) :
    (Deadline.from_now tag 0 t0).check_if_exceeded now
      = Except.error (Error.Outdated (now - t0) tag) := by
  simp [Deadline.from_now, Deadline.check_if_exceeded, h]

/-- Witness for C7 at a concrete instant: checking at the same instant the
0-duration Deadline was built reports `Outdated` with elapsed 0. -/
theorem Deadline.zero_duration_check_spec_witness :
    (Deadline.from_now "checksum" 0 7).check_if_exceeded 7
      = Except.error (Error.Outdated 0 "checksum") :=
  Deadline.zero_duration_check_spec "checksum" 7 7 (by decide)

/-- C8: a handler using the trait default of `collect_metrics_into` (no
override) leaves both its own state and the caller-supplied metrics
accumulator unchanged. -/
theorem RequestHandler.default_collect_metrics_noop {σ : Type}
    (h : RequestHandler σ) (s : σ) (metrics : ExecutorMetrics)
    (hd : h.collectMetricsIntoImpl = none) :
    h.collect_metrics_into s metrics = (s, metrics) := by
  simp [RequestHandler.collect_metrics_into, hd]

/-- Witness for C8 at a concrete handler: the unary-only handler, which uses
the default `collect_metrics_into`, returns state and metrics unchanged. -/
theorem RequestHandler.default_collect_metrics_noop_witness :
    unaryOnlyHandler.collect_metrics_into 4 ⟨1, 2, 3⟩ = (4, ⟨1, 2, 3⟩) :=
  RequestHandler.default_collect_metrics_noop unaryOnlyHandler 4 ⟨1, 2, 3⟩ rfl

/-- C9: immediately after `ReqContext::new` (built at instant `now`), the
embedded Deadline's deadline equals its start time (0-duration placeholder),
so `check_if_exceeded` at any instant `now2 ≥ now` fails with
`Outdated(now2 - now, tag)`. -/
theorem ReqContext.new_placeholder_deadline (tag : String) (ctx : kvrpcpb.Context)
    (ranges : List coppb.KeyRange) (peer : Option String)
    (is_desc_scan : Option Bool) (txn_start_ts : Option Nat) (now : Instant) :
    (ReqContext.new tag ctx ranges peer is_desc_scan txn_start_ts now).deadline.deadline
      = (ReqContext.new tag ctx ranges peer is_desc_scan txn_start_ts now).deadline.start_time ∧
    ∀ now2, now ≤ now2 →
      (ReqContext.new tag ctx ranges peer is_desc_scan txn_start_ts now).deadline.check_if_exceeded
          now2
        = Except.error (Error.Outdated (now2 - now) tag) := by
  refine ⟨by simp [ReqContext.new, Deadline.from_now], fun now2 h2 => ?_⟩
  simp [ReqContext.new, Deadline.from_now, Deadline.check_if_exceeded, h2]

/-- Witness for C9 at concrete inputs: a ReqContext built at instant 5 has a
deadline equal to its start time, and a check at instant 6 fails with
`Outdated` and elapsed 1. -/
theorem ReqContext.new_placeholder_deadline_witness :
    (ReqContext.new "analyze" ⟨[]⟩ [] none none none 5).deadline.deadline
      = (ReqContext.new "analyze" ⟨[]⟩ [] none none none 5).deadline.start_time ∧
    (ReqContext.new "analyze" ⟨[]⟩ [] none none none 5).deadline.check_if_exceeded 6
      = Except.error (Error.Outdated 1 "analyze") :=
  ⟨(ReqContext.new_placeholder_deadline "analyze" ⟨[]⟩ [] none none none 5).1,
   (ReqContext.new_placeholder_deadline "analyze" ⟨[]⟩ [] none none none 5).2 6
     (by decide)⟩

/-- C10: `reset` is last-write-wins and idempotent: resetting with `d1` and
then `d2` yields exactly the state of resetting with `d2` alone, and resetting
twice with the same `d` equals resetting once. -/
theorem Deadline.reset_last_write_wins (dl : Deadline) (d1 d2 d : Duration) :
    (dl.reset d1).reset d2 = dl.reset d2 ∧ (dl.reset d).reset d = dl.reset d := by
  cases dl
  simp [Deadline.reset]

end Coprocessor
